import Mathlib

/-!
Shallow embedding of the Fleet Commander queue, scheduler, auto-scaler and
doctor services (socialhostpro/fleetcmdagent), together with theorems checking
the natural-language specification against the code.

Redis state is modelled explicitly: string-keyed stores are association lists,
Redis lists are Lean lists (LPUSH adds at the head, RPUSH at the tail, LPOP
removes the head), Redis sets are duplicate-free lists, counters are naturals.
Timestamps are naturals (seconds).  HTTP exceptions are modelled by a response
type carrying the status code; an operation returns its response together with
the state as it stands at the point of return.
-/

namespace FleetCmd

/-- Python truthiness of an optional string: `None` and `""` are falsy. -/
def optTruthy : Option String → Bool
  | some s => !s.isEmpty
  | none => false

/-- Lookup in a string-keyed store (model of `redis.get`). -/
def storeGet {α : Type} : List (String × α) → String → Option α
  | [], _ => none
  | (k, v) :: rest, key => if k = key then some v else storeGet rest key

/-- Upsert in a string-keyed store (model of `redis.set`): overwrite in place,
append if the key is new. -/
def storeSet {α : Type} : List (String × α) → String → α → List (String × α)
  | [], key, v => [(key, v)]
  | (k, w) :: rest, key, v =>
      if k = key then (key, v) :: rest else (k, w) :: storeSet rest key v

/-- Model of `redis.sadd` on a set represented as a duplicate-free list. -/
def saddS (l : List String) (x : String) : List String :=
  if l.contains x then l else l ++ [x]

/-- Model of `redis.srem` and of `redis.lrem key 0 x` (remove every copy). -/
def sremS (l : List String) (x : String) : List String :=
  l.filter (fun y => y ≠ x)

/-- `isPrefOf pat l` : `pat` is a prefix of `l` (over characters). -/
def isPrefOf : List Char → List Char → Bool
  | [], _ => true
  | _ :: _, [] => false
  | a :: as, b :: bs => a == b && isPrefOf as bs

/-- Contiguous-sublist test, the model of Python `pat in s` on strings. -/
def hasSublist (pat : List Char) : List Char → Bool
  | [] => isPrefOf pat []
  | c :: cs => isPrefOf pat (c :: cs) || hasSublist pat cs

/-- Longest leading run of ASCII digits. -/
def takeDigits : List Char → List Char
  | [] => []
  | c :: cs => if c.isDigit then c :: takeDigits cs else []

/-- Decimal value of a digit run. -/
def digitsToNat (cs : List Char) : Nat :=
  cs.foldl (fun acc c => acc * 10 + (c.toNat - 48)) 0

/-- Model of `re.match(r'agx-?(\d+)', id_lower)`: anchored at the start,
`agx`, an optional hyphen, then at least one digit; yields `int(group(1))`. -/
def agxNum (cs : List Char) : Option Nat :=
  match cs with
  | 'a' :: 'g' :: 'x' :: rest =>
      let body : List Char :=
        match rest with
        | '-' :: r => r
        | r => r
      let ds := takeDigits body
      if ds.isEmpty then none else some (digitsToNat ds)
  | _ => none

/-- The lowercase character sequence of a node id (`node_id.lower()`). -/
def lowerChars (s : String) : List Char :=
  s.toList.map Char.toLower

/-- Embedding of `get_node_cluster` (queue.py:548-572): the cluster a node id
is mapped to, computed from the id string alone. -/
def get_node_cluster (node_id : String) : String :=
  let idl := lowerChars node_id
  if hasSublist "spark".toList idl || hasSublist "dgx".toList idl then
    "spark"
  else
    match agxNum idl with
    | some num =>
        if num ≤ 2 then "vision"
        else if num ≤ 4 then "media-gen"
        else if num ≤ 6 then "media-proc"
        else if num ≤ 9 then "llm"
        else if num = 10 then "voice"
        else if num = 11 then "music"
        else "roamer"
    | none => "default"

/-- A stored job record (`fleet:job:{id}` JSON, fields as in `create_job`).
`payload`, `timeout_seconds`, `callback_url` and the free-form `result` are
opaque to every claim and carried as-is (`result` as an optional string). -/
structure Job where
  job_id : String
  job_type : String
  priority : String
  target_cluster : Option String
  target_node : Option String
  max_retries : Nat
  status : String
  created_at : Nat
  started_at : Option Nat
  completed_at : Option Nat
  assigned_node : Option String
  progress : Nat
  result : Option String
  error : Option String
  retry_count : Nat
deriving Repr, DecidableEq

/-- The Redis state touched by the queue API: the job store, the three
priority lists, the processing set, the stats counters, and the node
heartbeats (a registered node id mapped to the cluster field its
registration supplied). -/
structure QState where
  jobs : List (String × Job)
  qhigh : List String
  qnormal : List String
  qlow : List String
  processing : List String
  statsQueued : Nat
  statsCompleted : Nat
  statsFailed : Nat
  heartbeats : List (String × String)
deriving Repr, DecidableEq

/-- An HTTP-style response: success payload or `HTTPException(code)`. -/
inductive Resp (α : Type) where
  | ok (a : α)
  | err (code : Nat) (msg : String)
deriving Repr, DecidableEq

/-- Request body of `POST /jobs` (class `JobCreate`). -/
structure JobCreate where
  job_type : String
  priority : String
  target_cluster : Option String
  target_node : Option String
  max_retries : Nat
deriving Repr, DecidableEq

/-- Embedding of `create_job` (queue.py:96-138).  The generated uuid and the
current time are passed explicitly. -/
def createJob (jc : JobCreate) (job_id : String) (now : Nat) (s : QState) :
    Resp String × QState :=
  let job : Job :=
    { job_id := job_id
      job_type := jc.job_type
      priority := jc.priority
      target_cluster := jc.target_cluster
      target_node := jc.target_node
      max_retries := jc.max_retries
      status := "queued"
      created_at := now
      started_at := none
      completed_at := none
      assigned_node := none
      progress := 0
      result := none
      error := none
      retry_count := 0 }
  let s1 : QState := { s with jobs := storeSet s.jobs job_id job }
  let s2 : QState :=
    match jc.priority with
    | "high" => { s1 with qhigh := s1.qhigh ++ [job_id] }
    | "low" => { s1 with qlow := s1.qlow ++ [job_id] }
    | _ => { s1 with qnormal := s1.qnormal ++ [job_id] }
  (Resp.ok job_id, { s2 with statsQueued := s2.statsQueued + 1 })

/-- `job.get("target_node") and job["target_node"] != node_id`. -/
def targetNodeBad (job : Job) (node_id : String) : Bool :=
  optTruthy job.target_node && job.target_node ≠ some node_id

/-- `job.get("target_cluster") and job["target_cluster"] != node_cluster`. -/
def targetClusterBad (job : Job) (cluster : String) : Bool :=
  optTruthy job.target_cluster && job.target_cluster ≠ some cluster

/-- `job_types and job["job_type"] not in job_types` (an empty list is
falsy in Python, so it imposes no filter). -/
def typeBad (job : Job) (job_types : Option (List String)) : Bool :=
  match job_types with
  | some l => !l.isEmpty && !l.contains job.job_type
  | none => false

/-- Result of scanning one priority queue inside `claim_job`. -/
structure TryOut where
  res : Option Job
  jobs : List (String × Job)
  q : List String
  processing : List String
deriving Repr, DecidableEq

/-- One iteration of the `for queue in [...]` loop of `claim_job`
(queue.py:323-361): `lpop` one id; a missing record drops the id; an
incompatible job is `lpush`ed back (to the head) and the scan moves on; a
compatible job is claimed. -/
def tryQueue (node_id cluster : String) (job_types : Option (List String))
    (now : Nat) (jobs : List (String × Job)) (q : List String)
    (processing : List String) : TryOut :=
  match q with
  | [] => { res := none, jobs := jobs, q := [], processing := processing }
  | jid :: rest =>
      match storeGet jobs jid with
      | none => { res := none, jobs := jobs, q := rest, processing := processing }
      | some job =>
          if targetNodeBad job node_id then
            { res := none, jobs := jobs, q := jid :: rest, processing := processing }
          else if targetClusterBad job cluster then
            { res := none, jobs := jobs, q := jid :: rest, processing := processing }
          else if typeBad job job_types then
            { res := none, jobs := jobs, q := jid :: rest, processing := processing }
          else
            let job1 : Job :=
              { job with
                  status := "processing"
                  started_at := some now
                  assigned_node := some node_id }
            { res := some job1
              jobs := storeSet jobs jid job1
              q := rest
              processing := saddS processing jid }

/-- Result of the full high -> normal -> low scan of `claim_job`. -/
structure ScanOut where
  res : Option Job
  jobs : List (String × Job)
  qhigh : List String
  qnormal : List String
  qlow : List String
  processing : List String
deriving Repr, DecidableEq

/-- The queue scan of `claim_job`: the three queues are tried in priority
order; a queue is consulted only when the earlier ones produced no claim. -/
def claimScan (node_id : String) (job_types : Option (List String)) (now : Nat)
    (jobs : List (String × Job)) (qh qn ql : List String)
    (processing : List String) : ScanOut :=
  let cluster := get_node_cluster node_id
  let t1 := tryQueue node_id cluster job_types now jobs qh processing
  match t1.res with
  | some j =>
      { res := some j, jobs := t1.jobs, qhigh := t1.q, qnormal := qn,
        qlow := ql, processing := t1.processing }
  | none =>
      let t2 := tryQueue node_id cluster job_types now t1.jobs qn t1.processing
      match t2.res with
      | some j =>
          { res := some j, jobs := t2.jobs, qhigh := t1.q, qnormal := t2.q,
            qlow := ql, processing := t2.processing }
      | none =>
          let t3 := tryQueue node_id cluster job_types now t2.jobs ql t2.processing
          { res := t3.res, jobs := t3.jobs, qhigh := t1.q, qnormal := t2.q,
            qlow := t3.q, processing := t3.processing }

/-- Embedding of `claim_job` (queue.py:308-364): a worker claims the next
compatible job; an unregistered node is refused with 403; `None` is returned
when no compatible job is found. -/
def claimJob (node_id : String) (job_types : Option (List String)) (now : Nat)
    (s : QState) : Resp (Option Job) × QState :=
  if (storeGet s.heartbeats node_id).isSome then
    let o := claimScan node_id job_types now s.jobs s.qhigh s.qnormal s.qlow
      s.processing
    (Resp.ok o.res,
      { s with jobs := o.jobs, qhigh := o.qhigh, qnormal := o.qnormal,
               qlow := o.qlow, processing := o.processing })
  else
    (Resp.err 403 "Node not registered", s)

/-- Embedding of `complete_job` (queue.py:367-423): ownership-checked
completion; a truthy error increments `retry_count` and either kills the job
(`retry_count >= max_retries`, `stats:failed` incremented) or re-queues it at
the tail of its priority list. -/
def completeJob (job_id node_id : String) (result : Option String)
    (error : Option String) (now : Nat) (s : QState) : Resp String × QState :=
  match storeGet s.jobs job_id with
  | none => (Resp.err 404 "Job not found", s)
  | some job =>
      if job.assigned_node ≠ some node_id then
        (Resp.err 403 "Job not assigned to this node", s)
      else
        if optTruthy error then
          let rc := job.retry_count + 1
          if rc ≥ job.max_retries then
            let job1 : Job :=
              { job with retry_count := rc, status := "dead", error := error,
                         completed_at := some now }
            (Resp.ok job1.status,
              { s with jobs := storeSet s.jobs job_id job1,
                       statsFailed := s.statsFailed + 1,
                       processing := sremS s.processing job_id })
          else
            let job1 : Job :=
              { job with retry_count := rc, status := "queued",
                         assigned_node := none, started_at := none,
                         error := error, completed_at := some now }
            let s1 : QState :=
              match job.priority with
              | "high" => { s with qhigh := s.qhigh ++ [job_id] }
              | "low" => { s with qlow := s.qlow ++ [job_id] }
              | _ => { s with qnormal := s.qnormal ++ [job_id] }
            (Resp.ok job1.status,
              { s1 with jobs := storeSet s1.jobs job_id job1,
                        processing := sremS s1.processing job_id })
        else
          let job1 : Job :=
            { job with status := "completed", result := result,
                       progress := 100, completed_at := some now }
          (Resp.ok job1.status,
            { s with jobs := storeSet s.jobs job_id job1,
                     statsCompleted := s.statsCompleted + 1,
                     processing := sremS s.processing job_id })

/-- Embedding of `cancel_job` (queue.py:185-208): refused with 404 when the
job is unknown and with 400 when its status is completed or failed; otherwise
the job is marked cancelled, `completed_at` is set to now, and the id is
removed from every priority list and from the processing set. -/
def cancelJob (job_id : String) (now : Nat) (s : QState) :
    Resp String × QState :=
  match storeGet s.jobs job_id with
  | none => (Resp.err 404 "Job not found", s)
  | some job =>
      if job.status = "completed" || job.status = "failed" then
        (Resp.err 400 "Cannot cancel completed/failed job", s)
      else
        let job1 : Job := { job with status := "cancelled", completed_at := some now }
        (Resp.ok "cancelled",
          { s with jobs := storeSet s.jobs job_id job1,
                   qhigh := sremS s.qhigh job_id,
                   qnormal := sremS s.qnormal job_id,
                   qlow := sremS s.qlow job_id,
                   processing := sremS s.processing job_id })

/-- The job id a claim returned, when it returned one. -/
def claimedId (r : Resp (Option Job) × QState) : Option String :=
  match r.1 with
  | Resp.ok (some j) => some j.job_id
  | _ => none

/-- The status a claim's returned job carries, when a job was returned. -/
def claimedStatus (r : Resp (Option Job) × QState) : Option String :=
  match r.1 with
  | Resp.ok (some j) => some j.status
  | _ => none

/-!
Smart Scheduler (backend/services/smart_scheduler.py).  One iteration of
`_scheduler_loop` acting on a dequeued job and the node chosen for it is
embedded as a pure step.  The environment abstracts the two external events
of the iteration: whether the `POST /models/switch` call returns 200
(`switchOk`) and whether, during the at-most-120-second `_wait_for_model_load`
poll, the node's heartbeat comes to report `current_model = target` with
`status = "online"` (`loadReported`).
-/

/-- A vision node as the scheduler sees it (dataclass `VisionNode`; the
fields the loop body consults). -/
structure VisionNode where
  node_id : String
  current_model : Option String
  status : String
deriving Repr, DecidableEq

/-- A vision queue job (dataclass `QueueJob`; the fields the loop body
consults and writes). -/
structure VQueueJob where
  job_id : String
  target_model : String
  status : String
  assigned_node : Option String
  error : Option String
deriving Repr, DecidableEq

/-- External events of one scheduler iteration. -/
structure SchedEnv where
  switchOk : Bool
  loadReported : Bool
deriving Repr, DecidableEq

/-- Outcome of one scheduler iteration: whether `dispatch_job_to_node` was
invoked, and the job and node as they stand at that moment. -/
structure SchedOutcome where
  dispatched : Bool
  job : VQueueJob
  node : VisionNode
deriving Repr, DecidableEq

/-- Embedding of the body of `SmartScheduler._scheduler_loop`
(smart_scheduler.py:309-349) for a dequeued `job` and chosen `node`:
if `node.current_model != job.target_model`, a switch is requested; a failed
request marks the job failed; after a successful request the node is put in
the `switching` state with `current_model = None` (by `switch_node_model`),
`_wait_for_model_load` polls for up to 120 s — and its boolean result is
discarded, after which the job is dispatched unconditionally. -/
def schedulerStep (job : VQueueJob) (node : VisionNode) (env : SchedEnv) :
    SchedOutcome :=
  if node.current_model ≠ some job.target_model then
    if !env.switchOk then
      { dispatched := false
        job := { job with status := "failed", error := some "Failed to switch model" }
        node := node }
    else
      let node1 : VisionNode := { node with status := "switching", current_model := none }
      let node2 : VisionNode :=
        if env.loadReported then
          { node1 with current_model := some job.target_model, status := "online" }
        else node1
      { dispatched := true
        job := { job with status := "running", assigned_node := some node2.node_id }
        node := node2 }
  else
    { dispatched := true
      job := { job with status := "running", assigned_node := some node.node_id }
      node := node }

/-!
Auto-Scaler (backend/services/autoscaler.py).  The decision logic of
`AutoScaler.evaluate` is embedded as a pure function of the configuration,
the clock, the queue depth, the node metrics, and the number of idle nodes.
GPU utilization is a rational (Python float percentages).
-/

/-- Scaling configuration (`get_config` defaults live at the call sites). -/
structure ScalingCfg where
  enabled : Bool
  min_nodes : Nat
  max_nodes : Nat
  target_queue_depth : Nat
  scale_up_threshold : ℚ
  scale_down_threshold : ℚ
  cooldown_seconds : Nat
deriving Repr, DecidableEq

/-- A scaling decision: the action string and the recommended node count. -/
structure ScaleDecision where
  action : String
  recommended_nodes : Nat
deriving Repr, DecidableEq

/-- Embedding of `AutoScaler.evaluate` (autoscaler.py:154-260), its decision
core: disabled or cooling-down evaluations recommend nothing; otherwise
scale-up fires when the reason list is non-empty (queue depth above target
OR average GPU utilization above `scale_up_threshold * 100`) and the node
count is below `max_nodes`, recommending
`min(active + max(1, depth // target), max_nodes)`; the scale-down branch
needs both of its reasons and at least one idle node. -/
def autoscalerEvaluate (cfg : ScalingCfg) (now : Nat)
    (lastScaleTime : Option Nat) (queueDepth activeNodes : Nat)
    (avgGpuUtil : ℚ) (idleCount : Nat) : ScaleDecision :=
  if !cfg.enabled then
    { action := "none", recommended_nodes := activeNodes }
  else if (match lastScaleTime with
           | some t => decide (now < t + cfg.cooldown_seconds)
           | none => false) then
    { action := "none", recommended_nodes := activeNodes }
  else
    let upReason1 := queueDepth > cfg.target_queue_depth
    let upReason2 := avgGpuUtil > cfg.scale_up_threshold * 100
    if (upReason1 || upReason2) && activeNodes < cfg.max_nodes then
      let nodesNeeded := Nat.max 1 (queueDepth / cfg.target_queue_depth)
      { action := "scale_up"
        recommended_nodes := Nat.min (activeNodes + nodesNeeded) cfg.max_nodes }
    else if activeNodes > cfg.min_nodes then
      let downReason1 := queueDepth < cfg.target_queue_depth / 2
      let downReason2 := avgGpuUtil < cfg.scale_down_threshold * 100
      if downReason1 && downReason2 && idleCount > 0 then
        { action := "scale_down"
          recommended_nodes := Nat.max (activeNodes - idleCount) cfg.min_nodes }
      else
        { action := "none", recommended_nodes := activeNodes }
    else
      { action := "none", recommended_nodes := activeNodes }

/-!
Fleet Doctor (backend/services/fleet_doctor.py and doctor_actions.py).
The per-problem decision logic of `_check_cycle` and the bookkeeping of
`_execute_action` are embedded as pure functions; the AI diagnosis —
free-form LLM output — is an input.
-/

/-- The risk level each registered action carries in the `ACTIONS` table of
doctor_actions.py (31-96); `none` for unknown action names. -/
def actionRiskLevel (name : String) : Option String :=
  if name = "disk_cleanup" then some "low"
  else if name = "aggressive_cleanup" then some "medium"
  else if name = "restart_agent" then some "low"
  else if name = "fix_s3_mounts" then some "low"
  else if name = "health_check" then some "low"
  else if name = "prune_docker" then some "low"
  else if name = "retry_job" then some "low"
  else if name = "alert_only" then some "low"
  else none

/-- Whether an action name has an HTTP endpoint in the `ACTIONS` table
(`alert_only` has `endpoint: None`). -/
def actionHasEndpoint (name : String) : Bool :=
  name = "disk_cleanup" || name = "aggressive_cleanup" ||
  name = "restart_agent" || name = "fix_s3_mounts" ||
  name = "health_check" || name = "prune_docker" || name = "retry_job"

/-- Doctor configuration (the fields `_check_cycle` consults). -/
structure DoctorConfig where
  auto_fix : Bool
  auto_fix_levels : List String
  cooldown_minutes : Nat
  max_actions_per_hour : Nat
deriving Repr, DecidableEq

/-- One recommended action of a diagnosis (`action_spec`). -/
structure ActionSpec where
  action : String
  params : List (String × String)
deriving Repr, DecidableEq

/-- An AI diagnosis (the fields `_check_cycle` consults). -/
structure Diagnosis where
  can_auto_fix : Bool
  risk_level : String
  recommended_actions : List ActionSpec
deriving Repr, DecidableEq

/-- A detected problem (the field the decision logic consults). -/
structure DProblem where
  node_id : Option String
deriving Repr, DecidableEq

/-- Doctor mutable state: the hourly action counter and the per-node
cooldown timestamps (seconds). -/
structure DoctorState where
  actions_this_hour : Nat
  action_cooldowns : List (String × Nat)
deriving Repr, DecidableEq

/-- Embedding of `FleetDoctor._execute_action` (fleet_doctor.py:311-335):
the named action is handed to `ActionExecutor.execute`, then the node
cooldown is stamped and `actions_this_hour` is incremented — unconditionally,
whatever the action was. -/
def executeActionD (s : DoctorState) (problem : DProblem) (spec : ActionSpec)
    (now : Nat) : String × DoctorState :=
  let cooldowns :=
    match problem.node_id with
    | some nid => storeSet s.action_cooldowns nid now
    | none => s.action_cooldowns
  (spec.action,
    { actions_this_hour := s.actions_this_hour + 1
      action_cooldowns := cooldowns })

/-- Executes a diagnosis's recommended actions in order, as the inner `for`
loop of `_check_cycle` does, returning the executed action names. -/
def executeAll (s : DoctorState) (problem : DProblem)
    (specs : List ActionSpec) (now : Nat) : List String × DoctorState :=
  match specs with
  | [] => ([], s)
  | spec :: rest =>
      let r1 := executeActionD s problem spec now
      let r2 := executeAll r1.2 problem rest now
      (r1.1 :: r2.1, r2.2)

/-- Embedding of the per-problem decision of `FleetDoctor._check_cycle`
(fleet_doctor.py:154-207): skip when auto-fix is off, when the node is in
cooldown, or when the hourly budget is exhausted; then execute every
recommended action exactly when the diagnosis says `can_auto_fix` and the
diagnosis's `risk_level` is among `auto_fix_levels` — otherwise escalate.
Returns the names of the executed actions and the new state. -/
def processProblem (cfg : DoctorConfig) (s : DoctorState) (now : Nat)
    (problem : DProblem) (diagnosis : Option Diagnosis) :
    List String × DoctorState :=
  if !cfg.auto_fix then ([], s)
  else if (match problem.node_id with
           | some nid =>
               match storeGet s.action_cooldowns nid with
               | some t => decide (now - t < cfg.cooldown_minutes * 60)
               | none => false
           | none => false) then ([], s)
  else if s.actions_this_hour ≥ cfg.max_actions_per_hour then ([], s)
  else
    match diagnosis with
    | none => ([], s)
    | some d =>
        if d.can_auto_fix && cfg.auto_fix_levels.contains d.risk_level then
          executeAll s problem d.recommended_actions now
        else ([], s)

/-!
Concrete scenario states, built through the embedded operations themselves.
-/

/-- The empty Redis state. -/
def emptyQ : QState :=
  { jobs := [], qhigh := [], qnormal := [], qlow := [], processing := []
    statsQueued := 0, statsCompleted := 0, statsFailed := 0, heartbeats := [] }

/-- Register a node heartbeat carrying a registration-supplied cluster. -/
def withWorker (s : QState) (nid cluster : String) : QState :=
  { s with heartbeats := storeSet s.heartbeats nid cluster }

/-- The stored status of a job, when the job exists. -/
def jobStatus (s : QState) (id : String) : Option String :=
  (storeGet s.jobs id).map (fun j => j.status)

/-- The stored `completed_at` of a job, when the job exists. -/
def jobCompletedAt (s : QState) (id : String) : Option (Option Nat) :=
  (storeGet s.jobs id).map (fun j => j.completed_at)

/-- The stored `retry_count` of a job, when the job exists. -/
def jobRetryCount (s : QState) (id : String) : Option Nat :=
  (storeGet s.jobs id).map (fun j => j.retry_count)

/-- C1 scenario: workers `agx-1` (cluster vision) and `agx-7` (cluster llm)
registered; J1 (`target_cluster = "llm"`) submitted ahead of J2 (no target)
in the same (normal) queue. -/
def sC1 : QState :=
  (createJob ⟨"image_gen", "normal", some "llm", none, 3⟩ "J1" 1
    (withWorker (withWorker emptyQ "agx-1" "vision") "agx-7" "llm")).2

/-- C1 scenario, second submission. -/
def sC1c : QState :=
  (createJob ⟨"image_gen", "normal", none, none, 3⟩ "J2" 2 sC1).2

/-- C1 variant: J1 (`target_cluster = "llm"`) in the normal queue, J2 with no
target in the low queue. -/
def sC1b : QState :=
  (createJob ⟨"image_gen", "low", none, none, 3⟩ "J2b" 2 sC1).2

/-- C3 scenario: job `J` with `max_retries = 2` queued, worker `w1`
registered. -/
def sC3 : QState :=
  (createJob ⟨"image_gen", "normal", none, none, 2⟩ "J" 1
    (withWorker emptyQ "w1" "default")).2

/-- C3 trace: first claim. -/
def c3r1 : Resp (Option Job) × QState := claimJob "w1" none 2 sC3

/-- C3 trace: first error completion. -/
def c3r2 : Resp String × QState := completeJob "J" "w1" none (some "boom") 3 c3r1.2

/-- C3 trace: second claim. -/
def c3r3 : Resp (Option Job) × QState := claimJob "w1" none 4 c3r2.2

/-- C3 trace: second error completion. -/
def c3r4 : Resp String × QState := completeJob "J" "w1" none (some "boom") 5 c3r3.2

/-- C3 trace: third claim attempt. -/
def c3r5 : Resp (Option Job) × QState := claimJob "w1" none 6 c3r4.2

/-- C7 scenario: job `X` cancelled at time 100, and job `D`
(`max_retries = 1`) driven to `dead` through one claim and one error
completion. -/
def sC7 : QState :=
  (completeJob "D" "w1" none (some "err") 4
    (claimJob "w1" none 3
      (createJob ⟨"t", "normal", none, none, 1⟩ "D" 2
        (cancelJob "X" 100
          (createJob ⟨"t", "normal", none, none, 3⟩ "X" 1
            (withWorker emptyQ "w1" "default")).2).2).2).2).2

/-- C8 witness scenario: job `K` claimed by (and assigned to) worker `w1`. -/
def sC8 : QState :=
  (claimJob "w1" none 2
    (createJob ⟨"t", "normal", none, none, 3⟩ "K" 1
      (withWorker emptyQ "w1" "default")).2).2

/-- C9 scenario: J1 (low), J2 (normal), J3 (high) submitted in this order,
worker `w1` registered. -/
def sC9 : QState :=
  (createJob ⟨"t", "high", none, none, 3⟩ "J3" 3
    (createJob ⟨"t", "normal", none, none, 3⟩ "J2" 2
      (createJob ⟨"t", "low", none, none, 3⟩ "J1" 1
        (withWorker emptyQ "w1" "default")).2).2).2

/-- C9 trace: first claim. -/
def c9r1 : Resp (Option Job) × QState := claimJob "w1" none 10 sC9

/-- C9 trace: second claim. -/
def c9r2 : Resp (Option Job) × QState := claimJob "w1" none 11 c9r1.2

/-- C9 trace: third claim. -/
def c9r3 : Resp (Option Job) × QState := claimJob "w1" none 12 c9r2.2

/-- C9 trace: fourth claim (queues drained). -/
def c9r4 : Resp (Option Job) × QState := claimJob "w1" none 13 c9r3.2

/-- C2 failing input: job whose target model is `flux`. -/
def jobC2 : VQueueJob :=
  { job_id := "v1", target_model := "flux", status := "pending"
    assigned_node := none, error := none }

/-- C2 failing input: chosen node currently loaded with `sdxl`. -/
def nodeC2 : VisionNode :=
  { node_id := "agx-1", current_model := some "sdxl", status := "online" }

/-- C2 failing input environment: the switch request is accepted but the
heartbeat never reports the target model within the 120 s window. -/
def envC2 : SchedEnv := { switchOk := true, loadReported := false }

/-- Default scaling configuration (`ScalingConfig` defaults /
`AutoScaler.get_config` defaults). -/
def defaultScalingCfg : ScalingCfg :=
  { enabled := true, min_nodes := 1, max_nodes := 16, target_queue_depth := 10
    scale_up_threshold := 4 / 5, scale_down_threshold := 1 / 5
    cooldown_seconds := 300 }

/-- C4 counterexample configuration: auto-fix restricted to low risk. -/
def cfgC4 : DoctorConfig :=
  { auto_fix := true, auto_fix_levels := ["low"], cooldown_minutes := 5
    max_actions_per_hour := 20 }

/-- Default doctor configuration (fleet_doctor.py:53-64 defaults). -/
def cfgDoctor : DoctorConfig :=
  { auto_fix := true, auto_fix_levels := ["low", "medium"], cooldown_minutes := 5
    max_actions_per_hour := 20 }

/-- A fresh doctor state: no actions this hour, no cooldowns. -/
def doctorS0 : DoctorState := { actions_this_hour := 0, action_cooldowns := [] }

/-- C4 counterexample diagnosis: the LLM reports low risk but recommends
`aggressive_cleanup`, whose own catalogued risk is medium. -/
def diagC4 : Diagnosis :=
  { can_auto_fix := true, risk_level := "low"
    recommended_actions := [⟨"aggressive_cleanup", []⟩] }

/-- A problem on node `agx-3`. -/
def probC4 : DProblem := { node_id := some "agx-3" }

/-- C5 diagnosis: a single `alert_only` recommendation. -/
def diagC5 : Diagnosis :=
  { can_auto_fix := true, risk_level := "low"
    recommended_actions := [⟨"alert_only", []⟩] }

/-- C9 FIFO scenario: two normal-priority jobs `A` then `B`. -/
def sC9b : QState :=
  (createJob ⟨"t", "normal", none, none, 3⟩ "B" 2
    (createJob ⟨"t", "normal", none, none, 3⟩ "A" 1
      (withWorker emptyQ "w1" "default")).2).2

/-- C9 FIFO trace: first claim on the two-job state. -/
def c9b1 : Resp (Option Job) × QState := claimJob "w1" none 10 sC9b

/-- C9 FIFO trace: second claim on the two-job state. -/
def c9b2 : Resp (Option Job) × QState := claimJob "w1" none 11 c9b1.2

/-!
Helper lemmas about the store model.
-/

/-- Reading back the key just written. -/
theorem storeGet_storeSet_self {α : Type} (l : List (String × α)) (k : String)
    (v : α) : storeGet (storeSet l k v) k = some v := by
  induction l with
  | nil => simp [storeSet, storeGet]
  | cons a rest ih =>
      rcases a with ⟨k0, v0⟩
      by_cases h : k0 = k <;> simp [storeSet, storeGet, h, ih]

/-- The actions `executeAll` hands to the executor are exactly the names of
the recommended actions, in order. -/
theorem executeAll_names (s : DoctorState) (p : DProblem)
    (specs : List ActionSpec) (now : Nat) :
    (executeAll s p specs now).1 = specs.map ActionSpec.action := by
  induction specs generalizing s with
  | nil => rfl
  | cons spec rest ih => simp [executeAll, executeActionD, ih]

/-!
Claim theorems.
-/

/-- Claim C1, counterexample.  With J1 (`target_cluster = "llm"`) ahead of J2
(no target) in the same queue, the claim by the vision worker `agx-1` does
NOT return J2: the incompatible J1 is pushed back to the HEAD of its queue
(`lpush`, not the claimed tail) and the scan moves to the next-priority
queue, so the call returns `None` and the queue is left as `[J1, J2]`. -/
theorem c1_counterexample :
    claimedId (claimJob "agx-1" none 5 sC1c) ≠ some "J2"
    ∧ (claimJob "agx-1" none 5 sC1c).1 = Resp.ok none
    ∧ (claimJob "agx-1" none 5 sC1c).2.qnormal = ["J1", "J2"] := by decide

/-- Claim C1, amended.  `claim` pops at most one id per queue; an
incompatible popped job is pushed back to the head of the same queue
(restoring the original order) and the scan continues with the next-priority
queue only.  In the scenario, the vision worker's claim returns `None` with
both jobs still queued in order, the llm worker's claim returns J1, and a
compatible job sitting at the head of a later queue is still found. -/
theorem c1_theorem :
    (claimJob "agx-1" none 5 sC1c).1 = Resp.ok none
    ∧ (claimJob "agx-1" none 5 sC1c).2.qnormal = ["J1", "J2"]
    ∧ claimedId (claimJob "agx-7" none 5 sC1c) = some "J1"
    ∧ claimedId (claimJob "agx-1" none 5 sC1b) = some "J2b"
    ∧ (claimJob "agx-1" none 5 sC1b).2.qnormal = ["J1"]
    ∧ (claimJob "agx-1" none 5 sC1b).2.qlow = [] := by decide

/-- Claim C2 (code bug), evaluated at the failing input.  The chosen node
holds `sdxl`, the job targets `flux`, the switch request is accepted, and the
heartbeat never reports the loaded model within the 120 s window:
`_wait_for_model_load` times out, its boolean result is discarded, and the
scheduler dispatches anyway — the job goes out `running` to a node whose
`current_model` (`None`, cleared by `switch_node_model`) differs from the
target, and the node is left `switching`, not `offline`; the job is not
marked failed. -/
theorem c2_theorem :
    nodeC2.current_model ≠ some jobC2.target_model
    ∧ (schedulerStep jobC2 nodeC2 envC2).dispatched = true
    ∧ (schedulerStep jobC2 nodeC2 envC2).node.current_model ≠ some jobC2.target_model
    ∧ (schedulerStep jobC2 nodeC2 envC2).job.status = "running"
    ∧ (schedulerStep jobC2 nodeC2 envC2).node.status = "switching" := by decide

/-- Claim C3, counterexample.  With `max_retries = 2`, the job is already
`dead` after the SECOND error completion (`retry_count` reaches
`max_retries` there), so the claimed third queued→processing leg cannot
occur: the third claim finds nothing. -/
theorem c3_counterexample :
    jobStatus c3r4.2 "J" = some "dead"
    ∧ jobRetryCount c3r4.2 "J" = some 2
    ∧ c3r5.1 = Resp.ok none := by decide

/-- Claim C3, amended.  With `max_retries = 2`, TWO error completions drive
the job queued→processing→queued→processing→dead; each error completion
increments `retry_count`, the job dies exactly when `retry_count` reaches
`max_retries` (being re-queued at the first error), and `stats:failed` is
incremented exactly once, at the transition to dead. -/
theorem c3_theorem :
    jobStatus sC3 "J" = some "queued"
    ∧ claimedStatus c3r1 = some "processing"
    ∧ jobStatus c3r2.2 "J" = some "queued"
    ∧ jobRetryCount c3r2.2 "J" = some 1
    ∧ c3r2.2.statsFailed = 0
    ∧ c3r2.2.qnormal = ["J"]
    ∧ claimedStatus c3r3 = some "processing"
    ∧ jobStatus c3r4.2 "J" = some "dead"
    ∧ jobRetryCount c3r4.2 "J" = some 2
    ∧ c3r4.2.statsFailed = 1 := by decide

/-- Claim C4, counterexample.  With `auto_fix_levels = ["low"]` and a
diagnosis reporting `risk_level = "low"` that recommends
`aggressive_cleanup`, the Doctor executes `aggressive_cleanup` although that
action's own catalogued risk level is `"medium"`, which is not in the
auto-fix set: the gate tests only the diagnosis's risk level. -/
theorem c4_counterexample :
    (processProblem cfgC4 doctorS0 1000 probC4 (some diagC4)).1
      = ["aggressive_cleanup"]
    ∧ actionRiskLevel "aggressive_cleanup" = some "medium"
    ∧ cfgC4.auto_fix_levels.contains "medium" = false := by decide

/-- Claim C4, amended.  An action is executed only when the DIAGNOSIS says
`can_auto_fix` and the DIAGNOSIS's `risk_level` is a member of
`auto_fix_levels`; the executed actions are then exactly the diagnosis's
recommended actions, whose own catalogued risk levels are never consulted. -/
theorem c4_theorem (cfg : DoctorConfig) (s : DoctorState) (now : Nat)
    (p : DProblem) (d : Diagnosis) (a : String)
    (ha : a ∈ (processProblem cfg s now p (some d)).1) :
    d.can_auto_fix = true
    ∧ d.risk_level ∈ cfg.auto_fix_levels
    ∧ a ∈ d.recommended_actions.map ActionSpec.action := by
  unfold processProblem at ha
  split at ha
  · simp at ha
  · split at ha
    · simp at ha
    · split at ha
      · simp at ha
      · split at ha
        · next heq => exact Option.noConfusion heq
        · next d2 heq =>
            injection heq with hd
            subst hd
            split at ha
            · next hgate =>
                rw [executeAll_names] at ha
                simp only [Bool.and_eq_true] at hgate
                exact ⟨hgate.1, List.elem_iff.mp hgate.2, ha⟩
            · simp at ha

/-- Claim C4, witness: the amended gate evaluated on the counterexample
input. -/
theorem c4_witness :
    diagC4.can_auto_fix = true
    ∧ diagC4.risk_level ∈ cfgC4.auto_fix_levels
    ∧ "aggressive_cleanup" ∈ diagC4.recommended_actions.map ActionSpec.action :=
  c4_theorem cfgC4 doctorS0 1000 probC4 diagC4 "aggressive_cleanup" (by decide)

/-- Claim C5, counterexample.  Executing the single recommended action
`alert_only` raises `actions_this_hour` from 0 to 1: the hourly counter is
NOT unchanged, so `alert_only` does consume budget. -/
theorem c5_counterexample :
    (processProblem cfgDoctor doctorS0 1000 probC4 (some diagC5)).1
      = ["alert_only"]
    ∧ (processProblem cfgDoctor doctorS0 1000 probC4 (some diagC5)).2.actions_this_hour
      = doctorS0.actions_this_hour + 1 := by decide

/-- Claim C5, amended.  `_execute_action` increments the hourly action
counter by exactly one for EVERY executed action, `alert_only` included:
alert-only executions count against the hourly budget like any other. -/
theorem c5_theorem (s : DoctorState) (p : DProblem) (spec : ActionSpec)
    (now : Nat) :
    (executeActionD s p spec now).2.actions_this_hour
      = s.actions_this_hour + 1 := rfl

/-- Claim C9.  Strict priority order with FIFO inside each tier: with J1
(low), J2 (normal), J3 (high) submitted, three successive unfiltered claims
return J3, then J2, then J1 (each handed over in `processing` state), a
fourth claim finds nothing; and two same-priority jobs are served in
submission order. -/
theorem c9_theorem :
    claimedId c9r1 = some "J3"
    ∧ claimedStatus c9r1 = some "processing"
    ∧ claimedId c9r2 = some "J2"
    ∧ claimedId c9r3 = some "J1"
    ∧ c9r4.1 = Resp.ok none
    ∧ claimedId c9b1 = some "A"
    ∧ claimedId c9b2 = some "B" := by decide

/-- Claim C6, counterexample.  With the default configuration
(target depth 10, up-threshold 0.8, max 16 nodes), an EMPTY queue and 90 %
average GPU utilization on 2 nodes still yield `scale_up`: the code joins
its scale-up reasons with OR, not the claimed AND, so `D > target` is not
required. -/
theorem c6_counterexample :
    (autoscalerEvaluate defaultScalingCfg 1000 none 0 2 90 0).action = "scale_up"
    ∧ ¬(0 > defaultScalingCfg.target_queue_depth) := by
  have h2 : ((90 : ℚ) > 4 / 5 * 100) := by norm_num
  constructor
  · simp [autoscalerEvaluate, defaultScalingCfg, h2]
  · decide

/-- Claim C6, amended.  `AutoScaler.evaluate` recommends `scale_up` exactly
when (queue depth above target OR average GPU utilization above
`scale_up_threshold * 100`) AND the active node count is below `max_nodes`;
the recommended count is then
`min(active + max(1, depth // target), max_nodes)`.  (The conjunctive gate
of the claim exists only in the queue API's `evaluate_scaling`, which
recommends `active + 1`.) -/
theorem c6_theorem (cfg : ScalingCfg) (now queueDepth activeNodes idleCount : Nat)
    (avgGpuUtil : ℚ) (hen : cfg.enabled = true) :
    ((autoscalerEvaluate cfg now none queueDepth activeNodes avgGpuUtil idleCount).action = "scale_up"
      ↔ ((queueDepth > cfg.target_queue_depth ∨ avgGpuUtil > cfg.scale_up_threshold * 100)
          ∧ activeNodes < cfg.max_nodes))
    ∧ ((queueDepth > cfg.target_queue_depth ∨ avgGpuUtil > cfg.scale_up_threshold * 100)
        → activeNodes < cfg.max_nodes
        → (autoscalerEvaluate cfg now none queueDepth activeNodes avgGpuUtil idleCount).recommended_nodes
            = Nat.min (activeNodes + Nat.max 1 (queueDepth / cfg.target_queue_depth)) cfg.max_nodes) := by
  unfold autoscalerEvaluate
  simp only [hen, Bool.not_true, Bool.false_eq_true, if_false]
  by_cases h1 : queueDepth > cfg.target_queue_depth <;>
    by_cases h2 : avgGpuUtil > cfg.scale_up_threshold * 100 <;>
      by_cases h3 : activeNodes < cfg.max_nodes <;>
        simp [h1, h2, h3] <;> split_ifs <;> simp_all

/-- Claim C6, witness: the amended rule evaluated at depth 25, 2 active
nodes, 90 % GPU utilization under the default configuration. -/
theorem c6_witness :
    (autoscalerEvaluate defaultScalingCfg 1000 none 25 2 90 0).action = "scale_up"
    ∧ (autoscalerEvaluate defaultScalingCfg 1000 none 25 2 90 0).recommended_nodes
        = Nat.min (2 + Nat.max 1 (25 / defaultScalingCfg.target_queue_depth))
            defaultScalingCfg.max_nodes :=
  ⟨(c6_theorem defaultScalingCfg 1000 25 2 0 90 rfl).1.mpr
      ⟨Or.inl (by decide), by decide⟩,
   (c6_theorem defaultScalingCfg 1000 25 2 0 90 rfl).2
      (Or.inl (by decide)) (by decide)⟩

/-- Claim C7, counterexample.  `cancel` on the already-cancelled job `X`
is neither refused nor a no-op: it returns success and rewrites the record
(`completed_at` moves from 100 to the new time 200); and `cancel` on the
dead job `D` also succeeds, although `dead` is outside
`{queued, processing}`. -/
theorem c7_counterexample :
    jobStatus sC7 "X" = some "cancelled"
    ∧ jobCompletedAt sC7 "X" = some (some 100)
    ∧ (cancelJob "X" 200 sC7).1 = Resp.ok "cancelled"
    ∧ jobCompletedAt (cancelJob "X" 200 sC7).2 "X" = some (some 200)
    ∧ jobStatus sC7 "D" = some "dead"
    ∧ (cancelJob "D" 201 sC7).1 = Resp.ok "cancelled" := by decide

/-- Claim C7, amended.  `cancel` is refused (400, state unchanged) exactly
when the job's status is `completed` or `failed`; for every other status —
`queued`, `processing`, but also `cancelled` and `dead` — it succeeds,
setting status to `cancelled` and `completed_at` to the current time, so
cancelling an already-cancelled job is permitted and refreshes
`completed_at` rather than being a no-op. -/
theorem c7_theorem (s : QState) (id : String) (now : Nat) (job : Job)
    (hj : storeGet s.jobs id = some job) :
    ((job.status = "completed" ∨ job.status = "failed") →
        cancelJob id now s = (Resp.err 400 "Cannot cancel completed/failed job", s))
    ∧ (job.status ≠ "completed" → job.status ≠ "failed" →
        (cancelJob id now s).1 = Resp.ok "cancelled"
        ∧ jobStatus (cancelJob id now s).2 id = some "cancelled"
        ∧ jobCompletedAt (cancelJob id now s).2 id = some (some now)) := by
  constructor
  · intro hst
    unfold cancelJob
    rw [hj]
    rcases hst with h | h <;> simp [h]
  · intro h1 h2
    unfold cancelJob jobStatus jobCompletedAt
    rw [hj]
    simp [h1, h2, storeGet_storeSet_self]

/-- Claim C7, witness: the amended rule applied to the cancelled job `X`. -/
theorem c7_witness :
    (cancelJob "X" 300 sC7).1 = Resp.ok "cancelled"
    ∧ jobStatus (cancelJob "X" 300 sC7).2 "X" = some "cancelled"
    ∧ jobCompletedAt (cancelJob "X" 300 sC7).2 "X" = some (some 300) :=
  (c7_theorem sC7 "X" 300
    { job_id := "X", job_type := "t", priority := "normal",
      target_cluster := none, target_node := none, max_retries := 3,
      status := "cancelled", created_at := 1, started_at := none,
      completed_at := some 100, assigned_node := none, progress := 0,
      result := none, error := none, retry_count := 0 }
    (by decide)).2 (by decide) (by decide)

/-- Claim C8.  When the completing worker is not the job's
`assigned_node`, `complete` returns the 403 conflict raised before any
write, with the returned state literally the input state: the job record,
the priority lists, the processing set and the stats counters are all
unchanged. -/
theorem c8_theorem (s : QState) (id nid : String) (result error : Option String)
    (now : Nat) (job : Job) (hj : storeGet s.jobs id = some job)
    (hown : job.assigned_node ≠ some nid) :
    completeJob id nid result error now s
      = (Resp.err 403 "Job not assigned to this node", s) := by
  unfold completeJob
  rw [hj]
  simp [hown]

/-- Claim C8, witness: worker `w2` attempts to complete job `K`, which is
assigned to `w1`. -/
theorem c8_witness :
    completeJob "K" "w2" none none 5 sC8
      = (Resp.err 403 "Job not assigned to this node", sC8) :=
  c8_theorem sC8 "K" "w2" none none 5
    { job_id := "K", job_type := "t", priority := "normal",
      target_cluster := none, target_node := none, max_retries := 3,
      status := "processing", created_at := 1, started_at := some 2,
      completed_at := none, assigned_node := some "w1", progress := 0,
      result := none, error := none, retry_count := 0 }
    (by decide) (by decide)

/-- Claim C10.  The worker cluster used by `claim` is computed purely from
the node-id string by `get_node_cluster` — ids containing `spark` or `dgx`
map to `spark`, `agx-N` ids map by the number N to vision / media-gen /
media-proc / llm / voice / music / roamer, everything else to `default` —
and the heartbeat record is consulted only for presence: replacing the
registered heartbeat values by anything that keeps the node registered
leaves the claim result unchanged, so the registration-supplied cluster
field is never consulted for claim matching. -/
theorem c10_theorem :
    (∀ (s : QState) (h : List (String × String)) (nid : String)
        (jts : Option (List String)) (now : Nat),
        (storeGet h nid).isSome = (storeGet s.heartbeats nid).isSome →
        (claimJob nid jts now { s with heartbeats := h }).1
          = (claimJob nid jts now s).1)
    ∧ get_node_cluster "SPARK-01" = "spark"
    ∧ get_node_cluster "jessica-dgx" = "spark"
    ∧ get_node_cluster "agx-1" = "vision"
    ∧ get_node_cluster "agx-2" = "vision"
    ∧ get_node_cluster "agx-3" = "media-gen"
    ∧ get_node_cluster "agx-4" = "media-gen"
    ∧ get_node_cluster "agx-5" = "media-proc"
    ∧ get_node_cluster "agx-6" = "media-proc"
    ∧ get_node_cluster "agx-7" = "llm"
    ∧ get_node_cluster "agx-9" = "llm"
    ∧ get_node_cluster "agx-10" = "voice"
    ∧ get_node_cluster "agx-11" = "music"
    ∧ get_node_cluster "agx15" = "roamer"
    ∧ get_node_cluster "orin-nano" = "default" := by
  constructor
  · intro s h nid jts now hpres
    unfold claimJob
    simp only []
    rw [hpres]
    by_cases hreg : (storeGet s.heartbeats nid).isSome <;> simp [hreg]
  · decide

/-- Claim C10, witness: swapping worker `w1`'s registered cluster value for
`llm` leaves the claim result on the C9 state unchanged. -/
theorem c10_witness :
    (claimJob "w1" none 10 { sC9 with heartbeats := [("w1", "llm")] }).1
      = (claimJob "w1" none 10 sC9).1 :=
  c10_theorem.1 sC9 [("w1", "llm")] "w1" none 10 (by decide)

end FleetCmd
